import Mathlib

/-!
Verification of the tangoctl deployment orchestrator against its
natural-language specification.

The embedding follows `src/models.py` and `src/tangoctl.py`:

* `TangoNode` / `Config` mirror the pydantic models; the Python `dict`
  `tango_nodes` (insertion-ordered, unique keys) is an association list.
* External effects (the `subprocess.run` calls) are modelled by oracles
  (`RemoteCall → Int` for ssh invocations, `List String → Int` for local
  docker invocations) together with an explicit trace of the calls issued,
  so that "no remote side effect occurs" is the trace being empty.
* Python exceptions (`KeyError` from the node lookup, the `Exception`
  raised by `run_command_on_tango_node`, `AssertionError`, `IndexError`)
  become the `TangoError` inductive; a function that can raise returns
  `Except TangoError`.  The spec's abstract error taxonomy maps onto it:
  `UnknownNodeError` is the `KeyError` of the dict lookup,
  `MalformedImageNameError` the `AssertionError` of the image-name asserts,
  `RemoteCommandError` the exception carrying fqdn, command and status.
* Python truthiness of `Optional[str]` (`x if x else default`) is: both
  `None` and the empty string select the default.
* `str.split(sep)` for a one-character separator is `py_split`, and the
  `strftime("%Y.%m.%d.%H%M%S")` timestamp is `get_date_time_stamp` over an
  explicit wall-clock record (`%m` etc. zero-pad to two digits).
-/

namespace Tangoctl

/-- `models.TangoNode`: fqdn required, per-node overrides optional. -/
structure TangoNode where
  fqdn : String
  ssh_key_path : Option String
  ssh_username : Option String
  volumes_path : Option String
deriving DecidableEq, Repr

/-- `models.Config`: global defaults plus the name → node mapping.
The Python dict is modelled as an insertion-ordered association list. -/
structure Config where
  docker_hub_org : String
  ssh_key_path : String
  ssh_username : String
  volumes_path : String
  tango_nodes : List (String × TangoNode)
deriving DecidableEq, Repr

/-- The exceptions the Python code can raise while orchestrating. -/
inductive TangoError where
  /-- `KeyError` from `get_config().tango_nodes[name]`; the spec calls it
  `UnknownNodeError{name}`. -/
  | unknownNode (name : String)
  /-- the `Exception` raised by `run_command_on_tango_node` on a non-zero
  ssh exit status; the spec calls it `RemoteCommandError{fqdn, command, status}`. -/
  | remoteCommandError (fqdn : String) (command : String) (status : Int)
  /-- `AssertionError` from an `assert` statement; the image-name asserts
  are the spec's `MalformedImageNameError`. -/
  | assertionError (msg : String)
  /-- `IndexError` from `image_name.split("/")[1]` when no slash exists. -/
  | indexError
deriving DecidableEq, Repr

/-- Python `s.split(sep)` for a single-character separator, on the char
list of `s`: always at least one token, empty tokens preserved. -/
def py_split (sep : Char) : List Char → List String
  | [] => [""]
  | c :: rest =>
    let r := py_split sep rest
    if c = sep then "" :: r
    else
      match r with
      | [] => [String.mk [c]]
      | t :: ts => String.mk (c :: t.data) :: ts

/-- Python `c in s` for a one-character needle. -/
def py_in (c : Char) (s : String) : Bool :=
  s.data.any (fun x => x == c)

/-- Python `s.count(c)` for a one-character needle. -/
def py_count (s : String) (c : Char) : Nat :=
  s.data.count c

/-- `tangoctl.get_tango_node`: `get_config().tango_nodes[name]`, raising
`KeyError` (spec: `UnknownNodeError`) when the name is absent. -/
def get_tango_node (cfg : Config) (name : String) : Except TangoError TangoNode :=
  match cfg.tango_nodes.lookup name with
  | some node => Except.ok node
  | none => Except.error (TangoError.unknownNode name)

/-- `tangoctl.node_list_to_nodes`: `"all"` yields every node in mapping
order, otherwise split on commas and look each token up; the list
comprehension raises at the first unknown token, returning no partial list. -/
def node_list_to_nodes (cfg : Config) (node_list : String) : Except TangoError (List TangoNode) :=
  if node_list = "all" then
    Except.ok (cfg.tango_nodes.map Prod.snd)
  else
    (py_split ',' node_list.data).mapM (get_tango_node cfg)

/-- Wall-clock reading used for the image timestamp tag. -/
structure DateTime where
  year : Nat
  month : Nat
  day : Nat
  hour : Nat
  minute : Nat
  second : Nat
deriving DecidableEq, Repr

/-- `strftime` zero-pads `%m %d %H %M %S` to two digits. -/
def pad2 (n : Nat) : String :=
  if n < 10 then "0" ++ toString n else toString n

/-- `tangoctl.get_date_time_stamp`: `datetime.now().strftime("%Y.%m.%d.%H%M%S")`. -/
def get_date_time_stamp (dt : DateTime) : String :=
  toString dt.year ++ "." ++ pad2 dt.month ++ "." ++ pad2 dt.day ++ "." ++
    pad2 dt.hour ++ pad2 dt.minute ++ pad2 dt.second

/-- One ssh invocation issued by the Remote Command Runner: the key it
forces, the `user@host` target, and the remote command text. -/
structure RemoteCall where
  ssh_key_path : String
  ssh_user_host : String
  command : String
deriving DecidableEq, Repr

/-- `tango_node.ssh_key_path if tango_node.ssh_key_path else get_config().ssh_key_path`:
Python truthiness, so `None` and `""` both fall back to the global default. -/
def effective_ssh_key_path (cfg : Config) (node : TangoNode) : String :=
  match node.ssh_key_path with
  | some s => if s = "" then cfg.ssh_key_path else s
  | none => cfg.ssh_key_path

/-- `tango_node.ssh_username if tango_node.ssh_username else get_config().ssh_username`. -/
def effective_ssh_username (cfg : Config) (node : TangoNode) : String :=
  match node.ssh_username with
  | some s => if s = "" then cfg.ssh_username else s
  | none => cfg.ssh_username

/-- The ssh invocation `run_command_on_tango_node` builds for a command. -/
def remote_call (cfg : Config) (node : TangoNode) (command : String) : RemoteCall :=
  ⟨effective_ssh_key_path cfg node,
   effective_ssh_username cfg node ++ "@" ++ node.fqdn,
   command⟩

/-- `tangoctl.run_command_on_tango_node`: resolve effective credentials,
issue one ssh call (recorded in the trace), and raise
`Exception(f"Command failed on {fqdn}: {command}. Status code: {status}")`
(spec: `RemoteCommandError`) on a non-zero exit status.  `exec` is the
external remote-executor oracle giving each call's exit status. -/
def run_command_on_tango_node (exec : RemoteCall → Int) (cfg : Config)
    (command : String) (node : TangoNode) :
    List RemoteCall × Except TangoError Unit :=
  let call := remote_call cfg node command
  let status := exec call
  ([call],
    if status ≠ 0 then
      Except.error (TangoError.remoteCommandError node.fqdn command status)
    else
      Except.ok ())

/-- `tangoctl.deploy_docker_image`: `image_name.split("/")[1]` (IndexError
when no slash), then the fixed pull → retag → remove sequence, each step a
`run_command_on_tango_node` call, aborted at the first raising step. -/
def deploy_docker_image (exec : RemoteCall → Int) (cfg : Config)
    (image_name : String) (node : TangoNode) :
    List RemoteCall × Except TangoError Unit :=
  match (py_split '/' image_name.data).get? 1 with
  | none => ([], Except.error TangoError.indexError)
  | some image_name_without_org =>
    let step1 := run_command_on_tango_node exec cfg ("docker pull " ++ image_name) node
    match step1.2 with
    | Except.error e => (step1.1, Except.error e)
    | Except.ok _ =>
      let step2 := run_command_on_tango_node exec cfg
        ("docker tag " ++ image_name ++ " " ++ image_name_without_org) node
      match step2.2 with
      | Except.error e => (step1.1 ++ step2.1, Except.error e)
      | Except.ok _ =>
        let step3 := run_command_on_tango_node exec cfg
          ("docker image rm " ++ image_name) node
        (step1.1 ++ step2.1 ++ step3.1, step3.2)

/-- The `for node in target_nodes: deploy_docker_image(image, node)` loop of
`tangoctl.deploy`: an exception from one node propagates (no try/except),
so the loop stops there and later nodes are never reached. -/
def deploy_nodes (exec : RemoteCall → Int) (cfg : Config) (image : String) :
    List TangoNode → List RemoteCall × Except TangoError Unit
  | [] => ([], Except.ok ())
  | node :: rest =>
    match deploy_docker_image exec cfg image node with
    | (t, Except.error e) => (t, Except.error e)
    | (t, Except.ok _) =>
      (t ++ (deploy_nodes exec cfg image rest).1, (deploy_nodes exec cfg image rest).2)

/-- `tangoctl.deploy`: resolve the selector, then deploy to each resolved
node in order. -/
def deploy (exec : RemoteCall → Int) (cfg : Config)
    (image_name : String) (tango_node_arg : String) :
    List RemoteCall × Except TangoError Unit :=
  match node_list_to_nodes cfg tango_node_arg with
  | Except.error e => ([], Except.error e)
  | Except.ok nodes => deploy_nodes exec cfg image_name nodes

/-- `tangoctl.build_docker_image_from_dockerfile`: the two asserts, then a
`docker build` tagging with the timestamp and a `docker tag` aliasing it as
`latest`; the subprocess return codes are not inspected (`subprocess.run`
without `check`), and the `latest` name is returned.  `localExec` is the
local-subprocess oracle; the trace records the argv lists issued. -/
def build_docker_image_from_dockerfile (localExec : List String → Int)
    (dockerfile : String) (image_name : String) (now : DateTime) :
    List (List String) × Except TangoError String :=
  if py_in ':' image_name then
    ([], Except.error (TangoError.assertionError "image_name should not include a tag"))
  else if py_count image_name '/' ≠ 1 then
    ([], Except.error (TangoError.assertionError
      "image_name should include exactly one slash (for the org)"))
  else
    let timestamp_tag := get_date_time_stamp now
    let image_name_timestamp := image_name ++ ":" ++ timestamp_tag
    let image_name_latest := image_name ++ ":latest"
    let cmd1 := ["docker", "build", "-t", image_name_timestamp, dockerfile]
    let cmd2 := ["docker", "tag", image_name_timestamp, image_name_latest]
    let _ := localExec cmd1
    let _ := localExec cmd2
    ([cmd1, cmd2], Except.ok image_name_latest)

/-- `tangoctl.build`: qualify the bare name with the configured org, assert
the bare name has no slash (spec: `MalformedImageNameError`), then invoke
the builder. -/
def build (localExec : List String → Int) (cfg : Config)
    (dockerfile : String) (image_name_arg : String) (now : DateTime) :
    List (List String) × Except TangoError String :=
  let image_name := cfg.docker_hub_org ++ "/" ++ image_name_arg
  if py_in '/' image_name_arg then
    ([], Except.error (TangoError.assertionError
      "image_name, as an argument, should not include a slash"))
  else
    build_docker_image_from_dockerfile localExec dockerfile image_name now

/-- Process exit status of a run: 0 when it returns normally, 1 when an
exception escapes `main` (Python exits non-zero on an uncaught exception). -/
def exit_code {α : Type} : Except TangoError α → Nat
  | Except.ok _ => 0
  | Except.error _ => 1

/-- Concrete node: only the username overridden (spec §8's per-field case). -/
def nodeA_fx : TangoNode := ⟨"a.example.com", none, some "alice", none⟩

/-- Concrete node: only the key path overridden. -/
def nodeB_fx : TangoNode := ⟨"b.example.com", some "/kb", none, none⟩

/-- Concrete node whose overrides are present but empty strings. -/
def node_empty_fx : TangoNode := ⟨"e.example.com", some "", some "", none⟩

/-- Concrete two-node configuration used by the concrete evaluations. -/
def cfg_fx : Config := ⟨"acme", "/gk", "root", "/vol", [("nodeA", nodeA_fx), ("nodeB", nodeB_fx)]⟩

/-- The lookup function realised by `cfg_fx` on known names. -/
def lookup_fx : String → TangoNode :=
  fun name => if name = "nodeB" then nodeB_fx else nodeA_fx

/-- Remote-executor oracle: every command succeeds. -/
def exec_zero_fx : RemoteCall → Int := fun _ => 0

/-- Remote-executor oracle: every command on `nodeA_fx` fails with status 1,
commands on other nodes succeed. -/
def exec_nodeA_fails_fx : RemoteCall → Int :=
  fun c => if c.ssh_user_host = "alice@a.example.com" then 1 else 0

/-- Remote-executor oracle: exactly the retag step of `acme/svc:latest`
fails with status 1. -/
def exec_tagfail_fx : RemoteCall → Int :=
  fun c => if c.command = "docker tag acme/svc:latest svc:latest" then 1 else 0

/-- Local-subprocess oracle: every docker invocation reports failure. -/
def localExec_fail_fx : List String → Int := fun _ => 1

/-- Concrete wall-clock reading. -/
def dt_fx : DateTime := ⟨2026, 1, 2, 3, 4, 5⟩

end Tangoctl

deriving instance DecidableEq for Except

namespace Tangoctl

/-- Looking every token up succeeds and keeps tokens in order, duplicates
included, when every token resolves. -/
lemma mapM_get_tango_node_ok (cfg : Config) (f : String → TangoNode) :
    ∀ l : List String, (∀ name ∈ l, cfg.tango_nodes.lookup name = some (f name)) →
      l.mapM (get_tango_node cfg) = Except.ok (l.map f) := by
  intro l
  induction l with
  | nil => intro _; rfl
  | cons a t ih =>
    intro h
    have ha : get_tango_node cfg a = Except.ok (f a) := by
      unfold get_tango_node
      rw [h a (List.mem_cons_self a t)]
    rw [List.mapM_cons, ha, ih fun name hm => h name (List.mem_cons_of_mem a hm)]
    rfl

/-- The first unresolvable token fails the whole lookup with `KeyError`
on that token, and no partial list is produced. -/
lemma mapM_get_tango_node_err (cfg : Config) :
    ∀ l : List String, (∃ name ∈ l, cfg.tango_nodes.lookup name = none) →
      ∃ m ∈ l, cfg.tango_nodes.lookup m = none ∧
        l.mapM (get_tango_node cfg) = Except.error (TangoError.unknownNode m) := by
  intro l
  induction l with
  | nil => rintro ⟨name, hm, _⟩; exact absurd hm (List.not_mem_nil name)
  | cons a t ih =>
    rintro ⟨name, hm, hnone⟩
    by_cases ha : cfg.tango_nodes.lookup a = none
    · refine ⟨a, List.mem_cons_self a t, ha, ?_⟩
      have : get_tango_node cfg a = Except.error (TangoError.unknownNode a) := by
        unfold get_tango_node
        rw [ha]
      rw [List.mapM_cons, this]
      rfl
    · obtain ⟨v, hv⟩ := Option.ne_none_iff_exists'.mp ha
      have hnt : name ∈ t := by
        rcases List.mem_cons.mp hm with h | h
        · exact absurd (h ▸ hnone) ha
        · exact h
      obtain ⟨m, hmt, hmn, heq⟩ := ih ⟨name, hnt, hnone⟩
      refine ⟨m, List.mem_cons_of_mem a hmt, hmn, ?_⟩
      have : get_tango_node cfg a = Except.ok v := by
        unfold get_tango_node
        rw [hv]
      rw [List.mapM_cons, this, heq]
      rfl

/-- The Remote Command Runner issues exactly one ssh call per invocation,
built from the effective credentials and the target fqdn. -/
lemma run_command_trace (exec : RemoteCall → Int) (cfg : Config)
    (command : String) (node : TangoNode) :
    (run_command_on_tango_node exec cfg command node).1 = [remote_call cfg node command] := rfl

/-- The Remote Command Runner raises exactly on a non-zero exit status,
carrying the fqdn, the command text and the status. -/
lemma run_command_result (exec : RemoteCall → Int) (cfg : Config)
    (command : String) (node : TangoNode) :
    (run_command_on_tango_node exec cfg command node).2 =
      if exec (remote_call cfg node command) ≠ 0 then
        Except.error (TangoError.remoteCommandError node.fqdn command
          (exec (remote_call cfg node command)))
      else
        Except.ok () := rfl

/-- C5: resolving the selector `"all"` returns every `TangoNode` in the
configuration's node mapping, each entry exactly once, in mapping order. -/
theorem resolve_all_returns_every_node (cfg : Config) :
    node_list_to_nodes cfg "all" = Except.ok (cfg.tango_nodes.map Prod.snd) := by
  unfold node_list_to_nodes
  rw [if_pos rfl]

/-- C6: for a non-`"all"` selector all of whose comma-separated tokens
resolve, resolution returns the looked-up nodes in token order, duplicates
preserved, with no whitespace trimming (the tokens are used literally). -/
theorem resolve_tokens_in_order_with_duplicates (cfg : Config) (sel : String)
    (f : String → TangoNode) (hsel : sel ≠ "all")
    (hf : ∀ name ∈ py_split ',' sel.data, cfg.tango_nodes.lookup name = some (f name)) :
    node_list_to_nodes cfg sel = Except.ok ((py_split ',' sel.data).map f) := by
  unfold node_list_to_nodes
  rw [if_neg hsel]
  exact mapM_get_tango_node_ok cfg f _ hf

/-- C6 witness: resolving `"nodeA,nodeB,nodeA"` against the concrete
two-node configuration yields `[nodeA, nodeB, nodeA]`. -/
theorem resolve_tokens_in_order_with_duplicates_witness :
    node_list_to_nodes cfg_fx "nodeA,nodeB,nodeA" =
      Except.ok [nodeA_fx, nodeB_fx, nodeA_fx] := by
  have h := resolve_tokens_in_order_with_duplicates cfg_fx "nodeA,nodeB,nodeA" lookup_fx
    (by decide) (by decide)
  rw [h]
  rfl

/-- C2: a selector containing a token absent from the node mapping fails
resolution with the unknown-node error (the spec's `UnknownNodeError`,
Python's `KeyError`), no partial node list is produced, and the deploy run
issues no remote command at all: its trace is empty. -/
theorem unknown_node_fails_before_any_remote_command (exec : RemoteCall → Int)
    (cfg : Config) (image sel : String) (hsel : sel ≠ "all") (name : String)
    (hmem : name ∈ py_split ',' sel.data)
    (hnone : cfg.tango_nodes.lookup name = none) :
    ∃ m ∈ py_split ',' sel.data, cfg.tango_nodes.lookup m = none ∧
      node_list_to_nodes cfg sel = Except.error (TangoError.unknownNode m) ∧
      deploy exec cfg image sel = ([], Except.error (TangoError.unknownNode m)) := by
  obtain ⟨m, hm, hmn, heq⟩ := mapM_get_tango_node_err cfg _ ⟨name, hmem, hnone⟩
  have hres : node_list_to_nodes cfg sel = Except.error (TangoError.unknownNode m) := by
    unfold node_list_to_nodes
    rw [if_neg hsel]
    exact heq
  refine ⟨m, hm, hmn, hres, ?_⟩
  unfold deploy
  rw [hres]

/-- C2 witness: deploying to `"nodeA,ghost"` against the concrete
configuration fails with the unknown-node error for `"ghost"` and issues
zero remote commands. -/
theorem unknown_node_fails_before_any_remote_command_witness :
    deploy exec_zero_fx cfg_fx "acme/svc:latest" "nodeA,ghost" =
      ([], Except.error (TangoError.unknownNode "ghost")) := by
  obtain ⟨m, hm, hmn, _, hdep⟩ := unknown_node_fails_before_any_remote_command
    exec_zero_fx cfg_fx "acme/svc:latest" "nodeA,ghost" (by decide) "ghost"
    (by decide) (by decide)
  have hsplit : py_split ',' ("nodeA,ghost").data = ["nodeA", "ghost"] := by decide
  rw [hsplit] at hm
  have hm2 : m = "nodeA" ∨ m = "ghost" := by simpa using hm
  rcases hm2 with h | h
  · rw [h] at hmn
    exact absurd hmn (by decide)
  · rw [h] at hdep
    exact hdep

/-- C7: for every node, credentials are resolved field by field: each of
key-path and username uses the node's own (non-empty) override when
present and falls back to the global default when absent; each field's
resolution depends only on that field of the node (so a node with only the
username overridden uses the global key path with the overridden
username); and the ssh call the Remote Command Runner actually issues
carries exactly the effective pair. -/
theorem per_field_credential_fallback (cfg : Config) (node : TangoNode) :
    (∀ k, node.ssh_key_path = some k → k ≠ "" →
      effective_ssh_key_path cfg node = k) ∧
    (node.ssh_key_path = none →
      effective_ssh_key_path cfg node = cfg.ssh_key_path) ∧
    (∀ u, node.ssh_username = some u → u ≠ "" →
      effective_ssh_username cfg node = u) ∧
    (node.ssh_username = none →
      effective_ssh_username cfg node = cfg.ssh_username) ∧
    (∀ m : TangoNode, m.ssh_key_path = node.ssh_key_path →
      effective_ssh_key_path cfg m = effective_ssh_key_path cfg node) ∧
    (∀ m : TangoNode, m.ssh_username = node.ssh_username →
      effective_ssh_username cfg m = effective_ssh_username cfg node) ∧
    (∀ exec command, (run_command_on_tango_node exec cfg command node).1 =
      [⟨effective_ssh_key_path cfg node,
        effective_ssh_username cfg node ++ "@" ++ node.fqdn, command⟩]) := by
  refine ⟨?_, ?_, ?_, ?_, ?_, ?_, ?_⟩
  · intro k hk hne
    unfold effective_ssh_key_path
    rw [hk]
    exact if_neg hne
  · intro h
    unfold effective_ssh_key_path
    rw [h]
  · intro u hu hne
    unfold effective_ssh_username
    rw [hu]
    exact if_neg hne
  · intro h
    unfold effective_ssh_username
    rw [h]
  · intro m hm
    unfold effective_ssh_key_path
    rw [hm]
  · intro m hm
    unfold effective_ssh_username
    rw [hm]
  · intro exec command
    rw [run_command_trace]
    rfl

/-- C7 witness: `nodeA_fx` overrides only the username, so its call uses
the global key `"/gk"` with the overridden user `alice`; `nodeB_fx`
overrides only the key path, so its call uses the overridden key `"/kb"`
with the global user `root` — both override-used and fallback directions
of each field are exercised. -/
theorem per_field_credential_fallback_witness :
    effective_ssh_key_path cfg_fx nodeA_fx = "/gk" ∧
    effective_ssh_username cfg_fx nodeA_fx = "alice" ∧
    effective_ssh_key_path cfg_fx nodeB_fx = "/kb" ∧
    effective_ssh_username cfg_fx nodeB_fx = "root" ∧
    (run_command_on_tango_node exec_zero_fx cfg_fx "uptime" nodeA_fx).1 =
      [⟨"/gk", "alice@a.example.com", "uptime"⟩] ∧
    (run_command_on_tango_node exec_zero_fx cfg_fx "uptime" nodeB_fx).1 =
      [⟨"/kb", "root@b.example.com", "uptime"⟩] := by
  have hA := per_field_credential_fallback cfg_fx nodeA_fx
  have hB := per_field_credential_fallback cfg_fx nodeB_fx
  refine ⟨hA.2.1 rfl, hA.2.2.1 "alice" rfl (by decide),
    hB.1 "/kb" rfl (by decide), hB.2.2.2.1 rfl, ?_, ?_⟩
  · rw [hA.2.2.2.2.2.2 exec_zero_fx "uptime"]
    rfl
  · rw [hB.2.2.2.2.2.2 exec_zero_fx "uptime"]
    rfl

/-- C10: an override field that is present but equal to the empty string is
treated as absent — Python truthiness — so that field falls back to the
global default; the issued ssh call always carries the effective pair. -/
theorem empty_string_override_falls_back (cfg : Config) (node : TangoNode) :
    (node.ssh_key_path = some "" → effective_ssh_key_path cfg node = cfg.ssh_key_path) ∧
    (node.ssh_username = some "" → effective_ssh_username cfg node = cfg.ssh_username) ∧
    (∀ exec command, (run_command_on_tango_node exec cfg command node).1 =
      [⟨effective_ssh_key_path cfg node,
        effective_ssh_username cfg node ++ "@" ++ node.fqdn, command⟩]) := by
  refine ⟨?_, ?_, ?_⟩
  · intro h
    unfold effective_ssh_key_path
    rw [h]
    exact if_pos rfl
  · intro h
    unfold effective_ssh_username
    rw [h]
    exact if_pos rfl
  · intro exec command
    rw [run_command_trace]
    rfl

/-- C10 witness: `node_empty_fx` has both overrides present but empty, and
both fields resolve to the global defaults in the issued call. -/
theorem empty_string_override_falls_back_witness :
    effective_ssh_key_path cfg_fx node_empty_fx = "/gk" ∧
    effective_ssh_username cfg_fx node_empty_fx = "root" ∧
    (run_command_on_tango_node exec_zero_fx cfg_fx "uptime" node_empty_fx).1 =
      [⟨"/gk", "root@e.example.com", "uptime"⟩] := by
  have h := empty_string_override_falls_back cfg_fx node_empty_fx
  have hk := h.1 rfl
  have hu := h.2.1 rfl
  refine ⟨hk, hu, ?_⟩
  rw [h.2.2 exec_zero_fx "uptime", hk, hu]
  rfl

/-- C4: for a registry-qualified artifact (the bare name being the segment
after the first slash), the deploy sequence issues exactly the three
commands pull → retag → remove, strictly in that order; when all three
succeed the trace is exactly those three calls; the first failing step
aborts the remaining steps with a `RemoteCommandError` carrying the fqdn,
the failing command and its status — in particular, when the retag step
fails, the cleanup step is never attempted. -/
theorem deploy_sequence_pull_retag_remove (exec : RemoteCall → Int) (cfg : Config)
    (image : String) (node : TangoNode) (bare : String)
    (hsplit : (py_split '/' image.data).get? 1 = some bare) :
    (exec (remote_call cfg node ("docker pull " ++ image)) = 0 →
     exec (remote_call cfg node ("docker tag " ++ image ++ " " ++ bare)) = 0 →
     exec (remote_call cfg node ("docker image rm " ++ image)) = 0 →
      deploy_docker_image exec cfg image node =
        ([remote_call cfg node ("docker pull " ++ image),
          remote_call cfg node ("docker tag " ++ image ++ " " ++ bare),
          remote_call cfg node ("docker image rm " ++ image)], Except.ok ())) ∧
    (exec (remote_call cfg node ("docker pull " ++ image)) ≠ 0 →
      deploy_docker_image exec cfg image node =
        ([remote_call cfg node ("docker pull " ++ image)],
         Except.error (TangoError.remoteCommandError node.fqdn
           ("docker pull " ++ image)
           (exec (remote_call cfg node ("docker pull " ++ image)))))) ∧
    (exec (remote_call cfg node ("docker pull " ++ image)) = 0 →
     exec (remote_call cfg node ("docker tag " ++ image ++ " " ++ bare)) ≠ 0 →
      deploy_docker_image exec cfg image node =
        ([remote_call cfg node ("docker pull " ++ image),
          remote_call cfg node ("docker tag " ++ image ++ " " ++ bare)],
         Except.error (TangoError.remoteCommandError node.fqdn
           ("docker tag " ++ image ++ " " ++ bare)
           (exec (remote_call cfg node ("docker tag " ++ image ++ " " ++ bare)))))) ∧
    (exec (remote_call cfg node ("docker pull " ++ image)) = 0 →
     exec (remote_call cfg node ("docker tag " ++ image ++ " " ++ bare)) = 0 →
     exec (remote_call cfg node ("docker image rm " ++ image)) ≠ 0 →
      deploy_docker_image exec cfg image node =
        ([remote_call cfg node ("docker pull " ++ image),
          remote_call cfg node ("docker tag " ++ image ++ " " ++ bare),
          remote_call cfg node ("docker image rm " ++ image)],
         Except.error (TangoError.remoteCommandError node.fqdn
           ("docker image rm " ++ image)
           (exec (remote_call cfg node ("docker image rm " ++ image)))))) := by
  refine ⟨?_, ?_, ?_, ?_⟩ <;>
    (intros
     unfold deploy_docker_image
     rw [hsplit]
     simp only [run_command_trace, run_command_result, *]
     simp [*])

/-- C4 witness: with the oracle failing exactly the retag step, deploying
`acme/svc:latest` to `nodeA_fx` issues pull then retag only — cleanup is
never attempted — and fails with the retag step's error. -/
theorem deploy_sequence_pull_retag_remove_witness :
    deploy_docker_image exec_tagfail_fx cfg_fx "acme/svc:latest" nodeA_fx =
      ([⟨"/gk", "alice@a.example.com", "docker pull acme/svc:latest"⟩,
        ⟨"/gk", "alice@a.example.com", "docker tag acme/svc:latest svc:latest"⟩],
       Except.error (TangoError.remoteCommandError "a.example.com"
         "docker tag acme/svc:latest svc:latest" 1)) := by
  have h := (deploy_sequence_pull_retag_remove exec_tagfail_fx cfg_fx
    "acme/svc:latest" nodeA_fx "svc:latest" (by decide)).2.2.1 (by decide) (by decide)
  rw [h]
  rfl

/-- C1 counterexample: deploying to the resolved list `[nodeA, nodeB]`
(selector `"all"` on the concrete configuration) with `nodeA`'s pull
failing, the run stops at `nodeA`'s error: the whole trace is the single
failed pull on `nodeA`, no command ever targets `nodeB` — the subsequent
node is not attempted — and the surfaced result is the one node's error,
not a list of per-node outcomes. -/
theorem deploy_stops_at_first_failed_node :
    deploy exec_nodeA_fails_fx cfg_fx "acme/svc:latest" "all" =
      ([⟨"/gk", "alice@a.example.com", "docker pull acme/svc:latest"⟩],
       Except.error (TangoError.remoteCommandError "a.example.com"
         "docker pull acme/svc:latest" 1)) ∧
    ((deploy exec_nodeA_fails_fx cfg_fx "acme/svc:latest" "all").1.all
      (fun c => c.ssh_user_host != "root@b.example.com")) = true := by
  constructor
  · rfl
  · rfl

/-- C1 (amended): when one node's deploy sequence fails with a
`RemoteCommandError`, the orchestrator aborts the rollout at that node: the
exception propagates out of the per-node loop, the run's trace is exactly
the failing node's trace, subsequent nodes in the list are never attempted,
and what is surfaced is that single node's failure detail rather than an
aggregated list of failed nodes. -/
theorem deploy_aborts_rollout_on_node_failure (exec : RemoteCall → Int)
    (cfg : Config) (image : String) (node : TangoNode) (rest : List TangoNode)
    (t : List RemoteCall) (e : TangoError)
    (h : deploy_docker_image exec cfg image node = (t, Except.error e)) :
    deploy_nodes exec cfg image (node :: rest) = (t, Except.error e) := by
  unfold deploy_nodes
  rw [h]

/-- C1 amended witness: with `nodeA`'s commands failing, the two-node
rollout `[nodeA, nodeB]` yields exactly `nodeA`'s failed pull and its
error. -/
theorem deploy_aborts_rollout_on_node_failure_witness :
    deploy_nodes exec_nodeA_fails_fx cfg_fx "acme/svc:latest" [nodeA_fx, nodeB_fx] =
      ([⟨"/gk", "alice@a.example.com", "docker pull acme/svc:latest"⟩],
       Except.error (TangoError.remoteCommandError "a.example.com"
         "docker pull acme/svc:latest" 1)) := by
  exact deploy_aborts_rollout_on_node_failure exec_nodeA_fails_fx cfg_fx
    "acme/svc:latest" nodeA_fx [nodeB_fx]
    [⟨"/gk", "alice@a.example.com", "docker pull acme/svc:latest"⟩]
    (TangoError.remoteCommandError "a.example.com" "docker pull acme/svc:latest" 1)
    (by decide)

/-- A bare name with a slash trips the no-slash assert in `build` before
`build_docker_image_from_dockerfile` is called, leaving an empty trace. -/
lemma build_fails_on_slash (localExec : List String → Int)
    (cfg : Config) (dockerfile bare : String) (dt : DateTime)
    (h : py_in '/' bare = true) :
    build localExec cfg dockerfile bare dt =
      ([], Except.error (TangoError.assertionError
        "image_name, as an argument, should not include a slash")) := by
  unfold build
  simp [h]

/-- C9: a bare image name containing a path separator makes build mode fail
with the no-slash assertion (the spec's `MalformedImageNameError`) and the
builder collaborator is never invoked: the local-subprocess trace is empty. -/
theorem slash_in_bare_name_fails_before_builder (localExec : List String → Int)
    (cfg : Config) (dockerfile bare : String) (dt : DateTime)
    (h : py_in '/' bare = true) :
    build localExec cfg dockerfile bare dt =
      ([], Except.error (TangoError.assertionError
        "image_name, as an argument, should not include a slash")) :=
  build_fails_on_slash localExec cfg dockerfile bare dt h

/-- C9 witness: bare name `"myorg/myimage"` fails with the assertion and an
empty local-subprocess trace, for the concrete failing collaborator. -/
theorem slash_in_bare_name_fails_before_builder_witness :
    build localExec_fail_fx cfg_fx "ctx" "myorg/myimage" dt_fx =
      ([], Except.error (TangoError.assertionError
        "image_name, as an argument, should not include a slash")) :=
  slash_in_bare_name_fails_before_builder localExec_fail_fx cfg_fx "ctx"
    "myorg/myimage" dt_fx (by decide)

lemma py_in_false_iff (c : Char) (s : String) :
    py_in c s = false ↔ c ∉ s.data := by
  unfold py_in
  rw [← Bool.not_eq_true, List.any_eq_true]
  constructor
  · intro h hmem
    exact h ⟨c, hmem, by simp⟩
  · rintro h ⟨x, hx, hxc⟩
    exact h ((beq_iff_eq.mp hxc) ▸ hx)

lemma py_count_zero_of_not_in (s : String) (c : Char) (h : py_in c s = false) :
    py_count s c = 0 := by
  unfold py_count
  exact List.count_eq_zero.mpr ((py_in_false_iff c s).mp h)

/-- The character list of the registry-qualified name `org ++ "/" ++ bare`. -/
lemma data_qualified (org bare : String) :
    (org ++ "/" ++ bare).data = org.data ++ '/' :: bare.data := by
  simp only [String.data_append]
  rw [List.append_assoc]
  rfl

/-- When the org and the bare name are well-formed, the qualified name has
no colon and exactly one slash, so the builder's two asserts pass and it
issues the build and tag commands and returns the latest reference. -/
lemma build_succeeds_on_wellformed_names (localExec : List String → Int)
    (cfg : Config) (dockerfile bare : String) (dt : DateTime)
    (h1 : py_in '/' cfg.docker_hub_org = false)
    (h2 : py_in ':' cfg.docker_hub_org = false)
    (h3 : py_in ':' bare = false)
    (h4 : py_in '/' bare = false) :
    build localExec cfg dockerfile bare dt =
      ([["docker", "build", "-t",
          cfg.docker_hub_org ++ "/" ++ bare ++ ":" ++ get_date_time_stamp dt,
          dockerfile],
        ["docker", "tag",
          cfg.docker_hub_org ++ "/" ++ bare ++ ":" ++ get_date_time_stamp dt,
          cfg.docker_hub_org ++ "/" ++ bare ++ ":latest"]],
       Except.ok (cfg.docker_hub_org ++ "/" ++ bare ++ ":latest")) := by
  have hcolon : py_in ':' (cfg.docker_hub_org ++ "/" ++ bare) = false := by
    unfold py_in
    rw [data_qualified, List.any_append, List.any_cons]
    unfold py_in at h2 h3
    rw [h2, h3]
    rfl
  have hslash : py_count (cfg.docker_hub_org ++ "/" ++ bare) '/' = 1 := by
    unfold py_count
    rw [data_qualified, List.count_append, List.count_cons]
    have z1 := py_count_zero_of_not_in cfg.docker_hub_org '/' h1
    have z2 := py_count_zero_of_not_in bare '/' h4
    unfold py_count at z1 z2
    rw [z1, z2]
    rfl
  unfold build
  rw [if_neg (by rw [h4]; exact Bool.false_ne_true)]
  unfold build_docker_image_from_dockerfile
  rw [if_neg (by rw [hcolon]; exact Bool.false_ne_true),
    if_neg (by rw [hslash]; exact fun hn => hn rfl)]

/-- A timestamp-tagged reference never coincides with the latest-tagged
reference of the same qualified name: the timestamp always contains a dot
while `latest` does not. -/
lemma timestamp_ref_ne_latest_ref (base : String) (dt : DateTime) :
    base ++ ":" ++ get_date_time_stamp dt ≠ base ++ ":latest" := by
  intro heq
  have hdata := congrArg String.data heq
  simp only [String.data_append] at hdata
  rw [List.append_assoc] at hdata
  have hsuffix : (":").data ++ (get_date_time_stamp dt).data = (":latest").data :=
    List.append_cancel_left hdata
  have hstamp : (get_date_time_stamp dt).data = ("latest").data := by
    have : ':' :: (get_date_time_stamp dt).data = ':' :: ("latest").data := hsuffix
    exact (List.cons_eq_cons.mp this).2
  have hdot : '.' ∈ (get_date_time_stamp dt).data := by
    unfold get_date_time_stamp
    simp only [String.data_append]
    apply List.mem_append_left
    apply List.mem_append_left
    apply List.mem_append_left
    apply List.mem_append_left
    apply List.mem_append_left
    apply List.mem_append_left
    apply List.mem_append_left
    apply List.mem_append_right
    decide
  rw [hstamp] at hdot
  exact absurd hdot (by decide)

/-- C3 counterexample: with a build collaborator reporting failure (exit
status 1 for every local command, in particular for the docker build
command the run actually issues), the build-mode run still returns normally
and the process exit code is 0 — not non-zero as claimed. -/
theorem build_mode_exit_zero_despite_collaborator_failure :
    (build localExec_fail_fx cfg_fx "ctx" "svc" dt_fx).1 =
      [["docker", "build", "-t", "acme/svc:2026.01.02.030405", "ctx"],
       ["docker", "tag", "acme/svc:2026.01.02.030405", "acme/svc:latest"]] ∧
    localExec_fail_fx ["docker", "build", "-t", "acme/svc:2026.01.02.030405", "ctx"] ≠ 0 ∧
    exit_code (build localExec_fail_fx cfg_fx "ctx" "svc" dt_fx).2 = 0 := by
  refine ⟨rfl, by decide, rfl⟩

/-- C3 (amended): for an org without separator or colon and a bare name
without colon, build mode's exit code is 0 on a well-formed bare name and
non-zero exactly when the bare name contains a path separator; the build
collaborator's reported exit status is ignored and never influences the
exit code (the result is the same for every collaborator oracle). -/
theorem build_mode_exit_code (localExec : List String → Int)
    (cfg : Config) (dockerfile bare : String) (dt : DateTime)
    (h1 : py_in '/' cfg.docker_hub_org = false)
    (h2 : py_in ':' cfg.docker_hub_org = false)
    (h3 : py_in ':' bare = false) :
    exit_code (build localExec cfg dockerfile bare dt).2 =
      if py_in '/' bare then 1 else 0 := by
  cases hb : py_in '/' bare
  · rw [build_succeeds_on_wellformed_names localExec cfg dockerfile bare dt h1 h2 h3 hb]
    rfl
  · rw [build_fails_on_slash localExec cfg dockerfile bare dt hb]
    rfl

/-- C3 amended witness: for the failing collaborator, the well-formed bare
name `"svc"` gives exit code 0 and the malformed `"my/img"` gives 1. -/
theorem build_mode_exit_code_witness :
    exit_code (build localExec_fail_fx cfg_fx "ctx" "svc" dt_fx).2 = 0 ∧
    exit_code (build localExec_fail_fx cfg_fx "ctx" "my/img" dt_fx).2 = 1 := by
  constructor
  · have h := build_mode_exit_code localExec_fail_fx cfg_fx "ctx" "svc" dt_fx
      (by decide) (by decide) (by decide)
    rw [h]
    rfl
  · have h := build_mode_exit_code localExec_fail_fx cfg_fx "ctx" "my/img" dt_fx
      (by decide) (by decide) (by decide)
    rw [h]
    decide

lemma pad2_length_of_lt (n : Nat) (h : n < 100) : (pad2 n).length = 2 := by
  have hall : ∀ m, m < 100 → (pad2 m).length = 2 := by decide
  exact hall n h

/-- The timestamp is the year's decimal digits followed by dot-separated
two-digit groups: its length is the year's plus 13 for in-range fields. -/
lemma stamp_length (dt : DateTime) (hm : dt.month < 100) (hd : dt.day < 100)
    (hh : dt.hour < 100) (hmi : dt.minute < 100) (hs : dt.second < 100) :
    (get_date_time_stamp dt).length = (toString dt.year).length + 13 := by
  unfold get_date_time_stamp
  simp only [String.length_append]
  rw [pad2_length_of_lt dt.month hm, pad2_length_of_lt dt.day hd,
    pad2_length_of_lt dt.hour hh, pad2_length_of_lt dt.minute hmi,
    pad2_length_of_lt dt.second hs]
  have hdot : (".").length = 1 := rfl
  rw [hdot]

/-- C8: a successful build with well-formed org and bare name returns the
latest reference `org/name:latest`; the same run issues a build command
producing the distinct timestamp-tagged reference `org/name:<timestamp>`
and a tag command aliasing that very timestamp reference as the latest
reference (identical image content); the timestamp string is the
`YYYY.MM.DD.HHMMSS` wall-clock rendering, dot-separated with two-digit
zero-padded fields, so its reference never collides with `latest`. -/
theorem build_returns_latest_and_timestamp_alias (localExec : List String → Int)
    (cfg : Config) (dockerfile bare : String) (dt : DateTime)
    (h1 : py_in '/' cfg.docker_hub_org = false)
    (h2 : py_in ':' cfg.docker_hub_org = false)
    (h3 : py_in ':' bare = false)
    (h4 : py_in '/' bare = false) :
    (build localExec cfg dockerfile bare dt).2 =
      Except.ok (cfg.docker_hub_org ++ "/" ++ bare ++ ":latest") ∧
    (build localExec cfg dockerfile bare dt).1 =
      [["docker", "build", "-t",
         cfg.docker_hub_org ++ "/" ++ bare ++ ":" ++ get_date_time_stamp dt,
         dockerfile],
       ["docker", "tag",
         cfg.docker_hub_org ++ "/" ++ bare ++ ":" ++ get_date_time_stamp dt,
         cfg.docker_hub_org ++ "/" ++ bare ++ ":latest"]] ∧
    cfg.docker_hub_org ++ "/" ++ bare ++ ":" ++ get_date_time_stamp dt ≠
      cfg.docker_hub_org ++ "/" ++ bare ++ ":latest" ∧
    (dt.month < 100 → dt.day < 100 → dt.hour < 100 → dt.minute < 100 →
     dt.second < 100 →
      (get_date_time_stamp dt).length = (toString dt.year).length + 13) := by
  have hb := build_succeeds_on_wellformed_names localExec cfg dockerfile bare dt h1 h2 h3 h4
  refine ⟨?_, ?_, ?_, ?_⟩
  · rw [hb]
  · rw [hb]
  · exact timestamp_ref_ne_latest_ref (cfg.docker_hub_org ++ "/" ++ bare) dt
  · intro hm hd hh hmi hs
    exact stamp_length dt hm hd hh hmi hs

/-- C8 witness: org `"acme"`, bare name `"svc"`, wall clock
2026-01-02 03:04:05: the run returns `acme/svc:latest` and tags the
distinct `acme/svc:2026.01.02.030405` as its alias. -/
theorem build_returns_latest_and_timestamp_alias_witness :
    (build localExec_fail_fx cfg_fx "ctx" "svc" dt_fx).2 =
      Except.ok "acme/svc:latest" ∧
    "acme/svc:2026.01.02.030405" ≠ "acme/svc:latest" ∧
    (get_date_time_stamp dt_fx).length = 17 := by
  have h := build_returns_latest_and_timestamp_alias localExec_fail_fx cfg_fx
    "ctx" "svc" dt_fx (by decide) (by decide) (by decide) (by decide)
  refine ⟨?_, by decide, ?_⟩
  · rw [h.1]
    rfl
  · have hl := h.2.2.2 (by decide) (by decide) (by decide) (by decide) (by decide)
    rw [hl]
    rfl

end Tangoctl
